import Mathlib

/-!
Shallow embedding of `src/apps/projects/models.py` (Django models for the
projects app): the `UserProject`, `ProjectSubmission` and `ProjectAssessment`
records and their overridden `save` methods, together with the relational
state they read and write.

Modelling conventions, chosen to mirror Django ORM semantics:

* Timestamps are `Nat` (an abstract clock value passed in as `now`).
* JSON payloads are carried as opaque `String` values; no claim inspects them.
* `FloatField` scores are modelled as `Option Rat`; the only operations the
  code performs on a score are order comparisons against the literals 0 and
  100, on which rationals and IEEE floats agree for every value in range.
* A Python runtime exception is an `Except` error paired with the database
  state at the moment of the raise (a raise inside `save` leaves every write
  already issued in place, matching the absence of an enclosing transaction).
* Name resolution: the module imports of `models.py` (lines 1-5) bring a
  fixed set of names into scope; evaluating a name not in scope raises
  `NameError`, exactly as in Python. The name `timezone` is used at lines
  164 and 269 but never imported.
* `UUIDField(primary_key=True, default=uuid.uuid4, editable=False)`: Django
  applies field defaults in `Model.__init__`, so a freshly constructed,
  never-saved instance already has a (truthy) primary key; the key is absent
  (`none`) only when the caller explicitly passes `id=None`.  `Model.save`
  assigns a fresh key at insert time when the key is `none`
  (`Field.get_pk_value_on_save`).
* `Model.save(update_fields=[...])` forces an UPDATE restricted to the named
  fields; if no row matches it raises (`DatabaseError`, Django >= 4.1), and
  calling it on an instance with no primary key raises `ValueError`.
* `auto_now` / `auto_now_add` fields are stamped with `now` by `pre_save`
  when (and only when) the corresponding column is being written.
-/

/-- Python runtime errors that the embedded save paths can raise. -/
inductive PyError where
  | nameError (name : String)
  | databaseError (msg : String)
  | valueError (msg : String)
deriving DecidableEq, Repr

/-- Names bound at module scope in `models.py` after the import lines 1-5 and
the top-level definitions. `timezone` is not among them. -/
def moduleGlobals : List String :=
  ["uuid", "models", "settings", "_", "MinValueValidator", "MaxValueValidator",
   "PROJECT_DIFFICULTY_CHOICES", "USER_PROJECT_STATUS_CHOICES",
   "ProjectTag", "Project", "UserProject", "ProjectSubmission", "ProjectAssessment"]

/-- Python name resolution against the module scope of `models.py`. -/
def resolveGlobal (n : String) : Except PyError Unit :=
  if moduleGlobals.contains n then Except.ok () else Except.error (PyError.nameError n)

/-- Evaluation of the expression `timezone.now()` as it occurs at lines 164
and 269 of `models.py`: resolve the name `timezone`, then read the clock. -/
def timezone_now (now : Nat) : Except PyError Nat :=
  match resolveGlobal "timezone" with
  | Except.error e => Except.error e
  | Except.ok _ => Except.ok now

/-- Status choices of `UserProject.status` (USER_PROJECT_STATUS_CHOICES). -/
def USER_PROJECT_STATUS_CHOICES : List String :=
  ["not_started", "in_progress", "submitted", "assessed", "completed", "failed", "archived"]

/-- Difficulty choices of `Project.difficulty_level`. -/
def PROJECT_DIFFICULTY_CHOICES : List String :=
  ["beginner", "intermediate", "advanced", "expert"]

/-- A `UserProject` record: one user's instance of a project. The same shape
serves as the in-memory model instance and as the stored table row (Django
uses one class for both). The primary key is always populated because the
uuid default is applied at construction. -/
structure UserProject where
  pk : Nat
  user_id : Nat
  project_id : Nat
  status : String
  started_at : Option Nat
  completed_at : Option Nat
  repository_url : Option String
  live_url : Option String
  created_at : Nat
  updated_at : Nat
deriving DecidableEq, Repr

/-- An in-memory `ProjectSubmission` model instance. `pk = none` models a
falsy primary key (caller passed `id=None`); a default-constructed instance
carries `pk = some u` for a fresh uuid `u`. `user_project` is the related
parent instance object reached through the foreign key. -/
structure ProjectSubmission where
  pk : Option Nat
  user_project : UserProject
  submitted_at : Option Nat
  submission_notes : Option String
  submission_artifacts : String
  submission_version : Nat
deriving DecidableEq, Repr

/-- A stored row of the `ProjectSubmission` table. -/
structure ProjectSubmissionRow where
  pk : Nat
  user_project_id : Nat
  submitted_at : Option Nat
  submission_notes : Option String
  submission_artifacts : String
  submission_version : Nat
deriving DecidableEq, Repr

/-- An in-memory `ProjectAssessment` model instance. `state_adding` is
Django's `self._state.adding` flag: true until the instance is first saved.
`submission` is the related `ProjectSubmission` object (one-to-one). -/
structure ProjectAssessment where
  pk : Nat
  state_adding : Bool
  submission : ProjectSubmission
  assessed_by_ai : Bool
  assessor_ai_agent_name : Option String
  manual_assessor_id : Option Nat
  score : Option Rat
  passed : Bool
  feedback_summary : Option String
  detailed_feedback : String
  assessed_at : Option Nat
deriving DecidableEq, Repr

/-- A stored row of the `ProjectAssessment` table. -/
structure ProjectAssessmentRow where
  pk : Nat
  submission_id : Nat
  assessed_by_ai : Bool
  assessor_ai_agent_name : Option String
  manual_assessor_id : Option Nat
  score : Option Rat
  passed : Bool
  feedback_summary : Option String
  detailed_feedback : String
  assessed_at : Option Nat
deriving DecidableEq, Repr

/-- The relational state the three overridden `save` methods read and write. -/
structure DB where
  user_projects : List UserProject
  submissions : List ProjectSubmissionRow
  assessments : List ProjectAssessmentRow
deriving DecidableEq, Repr

/-- UPDATE of a `UserProject` row restricted to `update_fields`: each named
column takes the instance's value, every other column keeps the row's value
(the primary key is never in `update_fields`). -/
def UserProject.applyUpdateFields (fields : List String) (row inst : UserProject) : UserProject :=
  { pk := row.pk
    user_id := if fields.contains "user" then inst.user_id else row.user_id
    project_id := if fields.contains "project" then inst.project_id else row.project_id
    status := if fields.contains "status" then inst.status else row.status
    started_at := if fields.contains "started_at" then inst.started_at else row.started_at
    completed_at := if fields.contains "completed_at" then inst.completed_at else row.completed_at
    repository_url := if fields.contains "repository_url" then inst.repository_url else row.repository_url
    live_url := if fields.contains "live_url" then inst.live_url else row.live_url
    created_at := if fields.contains "created_at" then inst.created_at else row.created_at
    updated_at := if fields.contains "updated_at" then inst.updated_at else row.updated_at }

/-- Django `Model.save` base behaviour for `UserProject` (what
`super().save(*args, **kwargs)` at line 166 does): stamp the `auto_now`
column `updated_at` when it is being written, then UPDATE the matching row
(all columns, or only `update_fields`); a full save INSERTs when no row
matches, while a save with `update_fields` that matches no row raises. -/
def UserProject.super_save (now : Nat) (self : UserProject)
    (update_fields : Option (List String)) (db : DB) :
    Except PyError UserProject × DB :=
  match update_fields with
  | none =>
      if db.user_projects.any (fun r => r.pk == self.pk) then
        (Except.ok { self with updated_at := now },
         { db with user_projects :=
             db.user_projects.map (fun r =>
               if r.pk == self.pk then { self with updated_at := now } else r) })
      else
        (Except.ok { self with updated_at := now },
         { db with user_projects := db.user_projects ++ [{ self with updated_at := now }] })
  | some fields =>
      if db.user_projects.any (fun r => r.pk == self.pk) then
        (Except.ok (if fields.contains "updated_at" then { self with updated_at := now } else self),
         { db with user_projects :=
             db.user_projects.map (fun r =>
               if r.pk == self.pk then
                 UserProject.applyUpdateFields fields r
                   (if fields.contains "updated_at" then { self with updated_at := now } else self)
               else r) })
      else
        (Except.error (PyError.databaseError "Save with update_fields did not affect any rows."), db)

/-- `UserProject.save` (models.py lines 162-166): if the in-memory status is
`in_progress` and `started_at` is unset, evaluate `timezone.now()` (which
first resolves the name `timezone`) into `started_at`, then call the base
save. -/
def UserProject.save (now : Nat) (self : UserProject)
    (update_fields : Option (List String)) (db : DB) :
    Except PyError UserProject × DB :=
  if self.status == "in_progress" && self.started_at.isNone then
    match timezone_now now with
    | Except.error e => (Except.error e, db)
    | Except.ok t => UserProject.super_save now { self with started_at := some t } update_fields db
  else
    UserProject.super_save now self update_fields db

/-- Project a `ProjectSubmission` instance onto a table row under primary key
`p` (the foreign key column stores the parent instance's primary key). -/
def ProjectSubmission.toRow (self : ProjectSubmission) (p : Nat) : ProjectSubmissionRow :=
  { pk := p
    user_project_id := self.user_project.pk
    submitted_at := self.submitted_at
    submission_notes := self.submission_notes
    submission_artifacts := self.submission_artifacts
    submission_version := self.submission_version }

/-- UPDATE of a `ProjectSubmission` row restricted to `update_fields`. -/
def ProjectSubmission.applyUpdateFields (fields : List String) (row : ProjectSubmissionRow)
    (inst : ProjectSubmission) : ProjectSubmissionRow :=
  { pk := row.pk
    user_project_id := if fields.contains "user_project" then inst.user_project.pk else row.user_project_id
    submitted_at := if fields.contains "submitted_at" then inst.submitted_at else row.submitted_at
    submission_notes := if fields.contains "submission_notes" then inst.submission_notes else row.submission_notes
    submission_artifacts := if fields.contains "submission_artifacts" then inst.submission_artifacts else row.submission_artifacts
    submission_version := if fields.contains "submission_version" then inst.submission_version else row.submission_version }

/-- Django `Model.save` base behaviour for `ProjectSubmission` (line 212's
`super().save(*args, **kwargs)`). A missing primary key gets a fresh value at
insert time and the `auto_now_add` column `submitted_at` is stamped on
insert; an instance whose key matches no row is inserted (a new instance with
a defaulted uuid key is INSERTed directly); `update_fields` forces an UPDATE
and raises when the key is absent or matches no row. -/
def ProjectSubmission.super_save (now fresh : Nat) (self : ProjectSubmission)
    (update_fields : Option (List String)) (db : DB) :
    Except PyError ProjectSubmission × DB :=
  match self.pk with
  | none =>
      match update_fields with
      | some _ =>
          (Except.error (PyError.valueError "Cannot force an update in save() with no primary key."), db)
      | none =>
          (Except.ok { self with pk := some fresh, submitted_at := some now },
           { db with submissions :=
               db.submissions
                 ++ [ProjectSubmission.toRow { self with pk := some fresh, submitted_at := some now } fresh] })
  | some p =>
      if db.submissions.any (fun r => r.pk == p) then
        match update_fields with
        | none =>
            (Except.ok self,
             { db with submissions :=
                 db.submissions.map (fun r => if r.pk == p then self.toRow p else r) })
        | some fields =>
            (Except.ok self,
             { db with submissions :=
                 db.submissions.map (fun r =>
                   if r.pk == p then ProjectSubmission.applyUpdateFields fields r self else r) })
      else
        match update_fields with
        | some _ =>
            (Except.error (PyError.databaseError "Save with update_fields did not affect any rows."), db)
        | none =>
            (Except.ok { self with submitted_at := some now },
             { db with submissions :=
                 db.submissions ++ [ProjectSubmission.toRow { self with submitted_at := some now } p] })

/-- The `order_by(-submission_version).first()` lookup at line 209: among the
rows of the submission table belonging to `user_project_id`, the one with the
greatest `submission_version` (none when the filter is empty). -/
def latest_by_version (rows : List ProjectSubmissionRow) : Option ProjectSubmissionRow :=
  rows.foldl
    (fun acc r =>
      match acc with
      | none => some r
      | some b => if r.submission_version > b.submission_version then some r else some b)
    none

/-- `ProjectSubmission.save` (models.py lines 203-212): when the primary key
is falsy, set the parent instance's status to `submitted` and save it with
`update_fields=[status, updated_at]`, then recompute `submission_version`
from the greatest existing version for the same parent (left untouched when
no submission exists); finally call the base save. When the primary key is
set the whole block is skipped. -/
def ProjectSubmission.save (now fresh : Nat) (self : ProjectSubmission)
    (update_fields : Option (List String)) (db : DB) :
    Except PyError ProjectSubmission × DB :=
  if self.pk.isNone then
    match UserProject.save now { self.user_project with status := "submitted" }
        (some ["status", "updated_at"]) db with
    | (Except.error e, db1) => (Except.error e, db1)
    | (Except.ok up, db1) =>
        match latest_by_version (db1.submissions.filter (fun r => r.user_project_id == up.pk)) with
        | some l =>
            ProjectSubmission.super_save now fresh
              { self with user_project := up, submission_version := l.submission_version + 1 }
              update_fields db1
        | none =>
            ProjectSubmission.super_save now fresh { self with user_project := up } update_fields db1
  else
    ProjectSubmission.super_save now fresh self update_fields db

/-- Project a `ProjectAssessment` instance onto a table row. -/
def ProjectAssessment.toRow (self : ProjectAssessment) : ProjectAssessmentRow :=
  { pk := self.pk
    submission_id := self.submission.pk.getD 0
    assessed_by_ai := self.assessed_by_ai
    assessor_ai_agent_name := self.assessor_ai_agent_name
    manual_assessor_id := self.manual_assessor_id
    score := self.score
    passed := self.passed
    feedback_summary := self.feedback_summary
    detailed_feedback := self.detailed_feedback
    assessed_at := self.assessed_at }

/-- UPDATE of a `ProjectAssessment` row restricted to `update_fields`. -/
def ProjectAssessment.applyUpdateFields (fields : List String) (row : ProjectAssessmentRow)
    (inst : ProjectAssessment) : ProjectAssessmentRow :=
  { pk := row.pk
    submission_id := if fields.contains "submission" then inst.submission.pk.getD 0 else row.submission_id
    assessed_by_ai := if fields.contains "assessed_by_ai" then inst.assessed_by_ai else row.assessed_by_ai
    assessor_ai_agent_name := if fields.contains "assessor_ai_agent_name" then inst.assessor_ai_agent_name else row.assessor_ai_agent_name
    manual_assessor_id := if fields.contains "manual_assessor" then inst.manual_assessor_id else row.manual_assessor_id
    score := if fields.contains "score" then inst.score else row.score
    passed := if fields.contains "passed" then inst.passed else row.passed
    feedback_summary := if fields.contains "feedback_summary" then inst.feedback_summary else row.feedback_summary
    detailed_feedback := if fields.contains "detailed_feedback" then inst.detailed_feedback else row.detailed_feedback
    assessed_at := if fields.contains "assessed_at" then inst.assessed_at else row.assessed_at }

/-- Django `Model.save` base behaviour for `ProjectAssessment` (line 263's
`super().save(*args, **kwargs)`). A new instance (`_state.adding`) is
INSERTed, stamping the `auto_now_add` column `assessed_at` and clearing the
adding flag; otherwise the matching row is UPDATEd (all columns, or only
`update_fields`, the latter raising when no row matches). Note that no field
validator runs here: Django validators are invoked only by
`full_clean`/`clean_fields`, never by `Model.save`. -/
def ProjectAssessment.super_save (now : Nat) (self : ProjectAssessment)
    (update_fields : Option (List String)) (db : DB) :
    Except PyError ProjectAssessment × DB :=
  if self.state_adding then
    (Except.ok { self with assessed_at := some now, state_adding := false },
     { db with assessments :=
         db.assessments ++ [ProjectAssessment.toRow { self with assessed_at := some now, state_adding := false }] })
  else
    match update_fields with
    | none =>
        if db.assessments.any (fun r => r.pk == self.pk) then
          (Except.ok self,
           { db with assessments :=
               db.assessments.map (fun r => if r.pk == self.pk then self.toRow else r) })
        else
          (Except.ok self, { db with assessments := db.assessments ++ [self.toRow] })
    | some fields =>
        if db.assessments.any (fun r => r.pk == self.pk) then
          (Except.ok self,
           { db with assessments :=
               db.assessments.map (fun r =>
                 if r.pk == self.pk then ProjectAssessment.applyUpdateFields fields r self else r) })
        else
          (Except.error (PyError.databaseError "Save with update_fields did not affect any rows."), db)

/-- `ProjectAssessment.save` (models.py lines 261-274): record whether the
instance is new, run the base save, and when the instance was new or the
caller's `update_fields` contains `passed`, push the derived update to the
parent `UserProject`: on `passed`, status becomes `completed` and
`completed_at` is set from `timezone.now()` (whose name resolution can
raise); otherwise status becomes `failed`; then the parent is saved with
`update_fields=[status, completed_at, updated_at]`. -/
def ProjectAssessment.save (now : Nat) (self : ProjectAssessment)
    (update_fields : Option (List String)) (db : DB) :
    Except PyError ProjectAssessment × DB :=
  match ProjectAssessment.super_save now self update_fields db with
  | (Except.error e, db1) => (Except.error e, db1)
  | (Except.ok self1, db1) =>
      if self.state_adding || (update_fields.getD []).contains "passed" then
        if self1.passed then
          match timezone_now now with
          | Except.error e => (Except.error e, db1)
          | Except.ok t =>
              ((UserProject.save now
                  { self1.submission.user_project with status := "completed", completed_at := some t }
                  (some ["status", "completed_at", "updated_at"]) db1).1.map
                 (fun up => { self1 with submission := { self1.submission with user_project := up } }),
               (UserProject.save now
                  { self1.submission.user_project with status := "completed", completed_at := some t }
                  (some ["status", "completed_at", "updated_at"]) db1).2)
        else
          ((UserProject.save now { self1.submission.user_project with status := "failed" }
              (some ["status", "completed_at", "updated_at"]) db1).1.map
             (fun up => { self1 with submission := { self1.submission with user_project := up } }),
           (UserProject.save now { self1.submission.user_project with status := "failed" }
              (some ["status", "completed_at", "updated_at"]) db1).2)
      else
        (Except.ok self1, db1)

/-- The call `MinValueValidator(0.0)` applied to a value: flags the value
when it is strictly below the limit. -/
def MinValueValidator_check (limit_value value : Rat) : Bool :=
  decide (value < limit_value)

/-- The call `MaxValueValidator(100.0)` applied to a value: flags the value
when it is strictly above the limit. -/
def MaxValueValidator_check (limit_value value : Rat) : Bool :=
  decide (value > limit_value)

/-- The validator list declared on `ProjectAssessment.score` (lines 236-241).
These run only inside `full_clean`/`clean_fields`, never inside `save`. -/
def score_validators : List (Rat → Bool) :=
  [MinValueValidator_check 0, MaxValueValidator_check 100]

/-- Django `Field.run_validators` applied to the `score` field with a
non-null value: true when some declared validator raises `ValidationError`. -/
def run_score_validators (value : Rat) : Bool :=
  score_validators.any (fun v => v value)

/-- Fields of a `UserProject` row other than status, completed_at and
updated_at: the frame the assessment cascade must not touch. -/
def UserProject.nonCascadeFields (u : UserProject) :
    Nat × Nat × Nat × Option Nat × Option String × Option String × Nat :=
  (u.pk, u.user_id, u.project_id, u.started_at, u.repository_url, u.live_url, u.created_at)

/-- Fields of a `UserProject` row other than status and updated_at: the frame
the submission cascade must not touch. -/
def UserProject.nonStatusFields (u : UserProject) :
    Nat × Nat × Nat × Option Nat × Option Nat × Option String × Option String × Nat :=
  (u.pk, u.user_id, u.project_id, u.started_at, u.completed_at, u.repository_url, u.live_url, u.created_at)

/-- A parent instance that is mid-work: status `in_progress`, already
started. Doubles as its own stored row. -/
def upA : UserProject :=
  { pk := 10, user_id := 1, project_id := 2, status := "in_progress",
    started_at := some 50, completed_at := none,
    repository_url := none, live_url := none, created_at := 40, updated_at := 41 }

/-- Database holding just the row of `upA`. -/
def dbA : DB := { user_projects := [upA], submissions := [], assessments := [] }

/-- A freshly constructed, never-saved submission for `upA`: the uuid default
has populated its primary key (`some 7`), as Django does in `__init__`. -/
def subNew7 : ProjectSubmission :=
  { pk := some 7, user_project := upA, submitted_at := none,
    submission_notes := none, submission_artifacts := "", submission_version := 1 }

/-- A second freshly constructed submission for `upA` (defaulted key 8). -/
def subNew8 : ProjectSubmission :=
  { pk := some 8, user_project := upA, submitted_at := none,
    submission_notes := none, submission_artifacts := "", submission_version := 1 }

/-- The database after `subNew7` is saved into `dbA`. -/
def dbAfterFirstSubmission : DB := (ProjectSubmission.save 100 99 subNew7 none dbA).2

/-- A parent instance in state `in_progress` that has no start timestamp. -/
def upC3 : UserProject :=
  { pk := 11, user_id := 1, project_id := 3, status := "in_progress",
    started_at := none, completed_at := none,
    repository_url := none, live_url := none, created_at := 40, updated_at := 41 }

/-- Database holding just the row of `upC3`. -/
def dbC3 : DB := { user_projects := [upC3], submissions := [], assessments := [] }

/-- A parent instance whose work has been submitted for assessment. -/
def upSubmitted : UserProject :=
  { pk := 12, user_id := 1, project_id := 4, status := "submitted",
    started_at := some 60, completed_at := none,
    repository_url := none, live_url := none, created_at := 40, updated_at := 61 }

/-- The stored submission row belonging to `upSubmitted`. -/
def subRowC4 : ProjectSubmissionRow :=
  { pk := 3, user_project_id := 12, submitted_at := some 70,
    submission_notes := none, submission_artifacts := "", submission_version := 1 }

/-- The in-memory submission instance matching `subRowC4`. -/
def subObjC4 : ProjectSubmission :=
  { pk := some 3, user_project := upSubmitted, submitted_at := some 70,
    submission_notes := none, submission_artifacts := "", submission_version := 1 }

/-- Database with `upSubmitted` and its stored submission. -/
def dbC4 : DB := { user_projects := [upSubmitted], submissions := [subRowC4], assessments := [] }

/-- A new, not-yet-saved passing assessment of `subObjC4`. -/
def assNewPassed : ProjectAssessment :=
  { pk := 21, state_adding := true, submission := subObjC4,
    assessed_by_ai := true, assessor_ai_agent_name := none, manual_assessor_id := none,
    score := some 90, passed := true, feedback_summary := none,
    detailed_feedback := "", assessed_at := none }

/-- A new, not-yet-saved assessment of `subObjC4` whose score 150 lies
outside the validated range and which did not pass. -/
def assScore150 : ProjectAssessment :=
  { pk := 22, state_adding := true, submission := subObjC4,
    assessed_by_ai := true, assessor_ai_agent_name := none, manual_assessor_id := none,
    score := some 150, passed := false, feedback_summary := none,
    detailed_feedback := "", assessed_at := none }

theorem map_eq_of_pointwise {α β : Type} (f g : α → β) (l : List α)
    (h : ∀ a, f a = g a) : l.map f = l.map g := by
  induction l with
  | nil => rfl
  | cons x xs ih => simp [h x, ih]

theorem timezone_now_error (now : Nat) :
    timezone_now now = Except.error (PyError.nameError "timezone") := rfl

theorem nonCascadeFields_applyUpdate (r inst : UserProject) :
    UserProject.nonCascadeFields
        (UserProject.applyUpdateFields ["status", "completed_at", "updated_at"] r inst)
      = UserProject.nonCascadeFields r := rfl

theorem nonStatusFields_applyUpdate (r inst : UserProject) :
    UserProject.nonStatusFields
        (UserProject.applyUpdateFields ["status", "updated_at"] r inst)
      = UserProject.nonStatusFields r := rfl


theorem UserProject.super_save_cascade_frame (now : Nat) (inst : UserProject) (db : DB) :
    ((UserProject.super_save now inst (some ["status", "completed_at", "updated_at"]) db).2).user_projects.map UserProject.nonCascadeFields
      = db.user_projects.map UserProject.nonCascadeFields := by
  unfold UserProject.super_save
  split
  next heq => cases heq
  next fields heq =>
    injection heq with h
    subst h
    split
    · rw [List.map_map]
      exact map_eq_of_pointwise _ _ _ (fun r => by
        by_cases h : (r.pk == inst.pk) = true
        · simp [Function.comp, h, nonCascadeFields_applyUpdate]
        · simp [Function.comp, h])
    · rfl

theorem UserProject.save_cascade_frame (now : Nat) (inst : UserProject) (db : DB) :
    ((UserProject.save now inst (some ["status", "completed_at", "updated_at"]) db).2).user_projects.map UserProject.nonCascadeFields
      = db.user_projects.map UserProject.nonCascadeFields := by
  unfold UserProject.save
  split
  · rfl
  · exact UserProject.super_save_cascade_frame now inst db

theorem UserProject.super_save_status_frame (now : Nat) (inst : UserProject) (db : DB) :
    ((UserProject.super_save now inst (some ["status", "updated_at"]) db).2).user_projects.map UserProject.nonStatusFields
      = db.user_projects.map UserProject.nonStatusFields := by
  unfold UserProject.super_save
  split
  next heq => cases heq
  next fields heq =>
    injection heq with h
    subst h
    split
    · rw [List.map_map]
      exact map_eq_of_pointwise _ _ _ (fun r => by
        by_cases h : (r.pk == inst.pk) = true
        · simp [Function.comp, h, nonStatusFields_applyUpdate]
        · simp [Function.comp, h])
    · rfl

theorem UserProject.save_status_frame (now : Nat) (inst : UserProject) (db : DB) :
    ((UserProject.save now inst (some ["status", "updated_at"]) db).2).user_projects.map UserProject.nonStatusFields
      = db.user_projects.map UserProject.nonStatusFields := by
  unfold UserProject.save
  split
  · rfl
  · exact UserProject.super_save_status_frame now inst db

theorem ProjectSubmission.super_save_keeps_user_projects (now fresh : Nat) (self : ProjectSubmission)
    (uf : Option (List String)) (db : DB) :
    ((ProjectSubmission.super_save now fresh self uf db).2).user_projects = db.user_projects := by
  unfold ProjectSubmission.super_save
  split <;> (try split) <;> (try split) <;> rfl

theorem ProjectAssessment.super_save_keeps_parent_rows (now : Nat) (self : ProjectAssessment)
    (uf : Option (List String)) (db : DB) :
    ((ProjectAssessment.super_save now self uf db).2).user_projects = db.user_projects := by
  unfold ProjectAssessment.super_save
  split <;> (try split) <;> (try split) <;> rfl

/-- C5: every execution of the assessment save, whatever it writes to the
parent `UserProject` table, leaves every field of every parent row other than
status, completed_at and the updated-timestamp unchanged: the cascade is
issued with exactly those three update fields. -/
theorem assessment_cascade_frame (now : Nat) (self : ProjectAssessment)
    (uf : Option (List String)) (db : DB) :
    ((ProjectAssessment.save now self uf db).2).user_projects.map UserProject.nonCascadeFields
      = db.user_projects.map UserProject.nonCascadeFields := by
  unfold ProjectAssessment.save
  rcases h0 : ProjectAssessment.super_save now self uf db with ⟨r1, db1⟩
  have hup1 : db1.user_projects = db.user_projects := by
    have h := ProjectAssessment.super_save_keeps_parent_rows now self uf db
    rw [h0] at h; exact h
  cases r1 with
  | error e => simp [hup1]
  | ok self1 =>
      split
      next heq => simp at heq
      next self1x db1x heq =>
        injection heq with ha hb
        injection ha with hc
        subst hc; subst hb
        split
        · split
          · split
            next heq2 => simp [hup1]
            next t heq2 => rw [timezone_now_error] at heq2; cases heq2
          · exact (UserProject.save_cascade_frame now _ db1).trans (by rw [hup1])
        · simp [hup1]

/-- C6: every execution of the submission save, whatever it pushes to the
parent `UserProject` table, leaves every field of every parent row other than
status and the updated-timestamp unchanged: the cascade write is issued with
exactly those two update fields. -/
theorem submission_parent_frame (now fresh : Nat) (self : ProjectSubmission)
    (uf : Option (List String)) (db : DB) :
    ((ProjectSubmission.save now fresh self uf db).2).user_projects.map UserProject.nonStatusFields
      = db.user_projects.map UserProject.nonStatusFields := by
  unfold ProjectSubmission.save
  split
  · rcases h1 : UserProject.save now { self.user_project with status := "submitted" }
        (some ["status", "updated_at"]) db with ⟨r1, db1⟩
    have hfr : db1.user_projects.map UserProject.nonStatusFields
        = db.user_projects.map UserProject.nonStatusFields := by
      have h := UserProject.save_status_frame now { self.user_project with status := "submitted" } db
      rw [h1] at h; exact h
    cases r1 with
    | error e => exact hfr
    | ok up =>
        show ((match latest_by_version (db1.submissions.filter fun r => r.user_project_id == up.pk) with
              | some l =>
                  ProjectSubmission.super_save now fresh
                    { self with user_project := up, submission_version := l.submission_version + 1 } uf db1
              | none =>
                  ProjectSubmission.super_save now fresh { self with user_project := up } uf db1).2).user_projects.map UserProject.nonStatusFields
          = db.user_projects.map UserProject.nonStatusFields
        cases latest_by_version (db1.submissions.filter fun r => r.user_project_id == up.pk) with
        | none =>
            exact (congrArg (List.map UserProject.nonStatusFields)
              (ProjectSubmission.super_save_keeps_user_projects now fresh _ uf db1)).trans hfr
        | some l =>
            exact (congrArg (List.map UserProject.nonStatusFields)
              (ProjectSubmission.super_save_keeps_user_projects now fresh _ uf db1)).trans hfr
  · exact congrArg (List.map UserProject.nonStatusFields)
      (ProjectSubmission.super_save_keeps_user_projects now fresh self uf db)

theorem ProjectSubmission.super_save_version (now fresh : Nat) (self : ProjectSubmission)
    (uf : Option (List String)) (db : DB) (s : ProjectSubmission)
    (hs : (ProjectSubmission.super_save now fresh self uf db).1 = Except.ok s) :
    s.submission_version = self.submission_version := by
  unfold ProjectSubmission.super_save at hs
  split at hs <;> (try split at hs) <;> (try split at hs) <;>
    first
    | (injection hs with h2; subst h2; rfl)
    | exact Except.noConfusion hs

theorem persisted_submission_save_skips_block (now fresh : Nat) (self : ProjectSubmission)
    (uf : Option (List String)) (db : DB) (p : Nat) (h : self.pk = some p) :
    ProjectSubmission.save now fresh self uf db
      = ProjectSubmission.super_save now fresh self uf db := by
  unfold ProjectSubmission.save
  rw [h]
  rfl

/-- C1: the spec says creating a submission always leaves the parent instance
status equal to "submitted" immediately afterward. In the code the cascade is
guarded by a falsy-primary-key test, but the uuid default populates the key
at construction, so for a normally constructed new submission the guard is
false: the save completes yet the parent row keeps its prior status
("in_progress" here), contradicting the claim. -/
theorem submission_create_with_default_pk_skips_cascade :
    (ProjectSubmission.save 100 99 subNew7 none dbA).1
        = Except.ok { subNew7 with submitted_at := some 100 } ∧
    (ProjectSubmission.save 100 99 subNew7 none dbA).2.user_projects.map UserProject.status
        = ["in_progress"] := by
  exact ⟨rfl, rfl⟩

/-- C2: the spec says versions are strictly increasing starting at 1, the
second submission getting version 2. Because the version bump sits inside the
dead falsy-primary-key branch, two successively created submissions for the
same instance both persist with version 1, contradicting the claim. -/
theorem second_submission_version_stays_one :
    dbAfterFirstSubmission.submissions.map (fun r => r.submission_version) = [1] ∧
    (ProjectSubmission.save 200 98 subNew8 none dbAfterFirstSubmission).2.submissions.map
        (fun r => r.submission_version) = [1, 1] := by
  exact ⟨rfl, rfl⟩

/-- C3: the spec says persisting an instance whose status is "in_progress"
with no start timestamp stamps `started_at` before writing. The code instead
evaluates `timezone.now()` with `timezone` unresolved, so the save raises
`NameError` and writes nothing: the database is returned unchanged. -/
theorem in_progress_save_raises_name_error :
    UserProject.save 100 upC3 none dbC3
      = (Except.error (PyError.nameError "timezone"), dbC3) := rfl

/-- C4: the spec says a newly created assessment with `passed=true` leaves
the parent instance "completed" with `completed_at` set. The code persists
the assessment row, then raises `NameError` at `timezone.now()` before the
parent is written: the parent row keeps status "submitted" and a null
`completed_at`, contradicting the claim. -/
theorem passed_assessment_save_raises_name_error :
    (ProjectAssessment.save 100 assNewPassed none dbC4).1
        = Except.error (PyError.nameError "timezone") ∧
    (ProjectAssessment.save 100 assNewPassed none dbC4).2.user_projects.map UserProject.status
        = ["submitted"] ∧
    (ProjectAssessment.save 100 assNewPassed none dbC4).2.user_projects.map UserProject.completed_at
        = [none] ∧
    (ProjectAssessment.save 100 assNewPassed none dbC4).2.assessments.length = 1 := by
  exact ⟨rfl, rfl, rfl, rfl⟩

/-- C7: for a save of an already-persisted submission (primary key present),
the status cascade and the version computation are not re-executed: the
parent table is untouched and a successful save returns the submission with
its version unchanged. The guard is the falsy-primary-key test at save time. -/
theorem persisted_submission_save_no_reexecution (now fresh : Nat) (self : ProjectSubmission)
    (uf : Option (List String)) (db : DB) (p : Nat) (h : self.pk = some p) :
    ((ProjectSubmission.save now fresh self uf db).2).user_projects = db.user_projects ∧
    ∀ s, (ProjectSubmission.save now fresh self uf db).1 = Except.ok s →
        s.submission_version = self.submission_version := by
  rw [persisted_submission_save_skips_block now fresh self uf db p h]
  exact ⟨ProjectSubmission.super_save_keeps_user_projects now fresh self uf db,
         fun s hs => ProjectSubmission.super_save_version now fresh self uf db s hs⟩

/-- Witness for C7 at a concrete persisted submission. -/
theorem persisted_submission_save_no_reexecution_witness :
    subObjC4.pk = some 3 ∧
    (((ProjectSubmission.save 300 99 subObjC4 none dbC4).2).user_projects = dbC4.user_projects ∧
     ∀ s, (ProjectSubmission.save 300 99 subObjC4 none dbC4).1 = Except.ok s →
        s.submission_version = subObjC4.submission_version) :=
  ⟨rfl, persisted_submission_save_no_reexecution 300 99 subObjC4 none dbC4 3 rfl⟩

/-- C8 counterexample: the spec says a write with score outside [0, 100] is
rejected and nothing is persisted. Saving a new assessment with score 150
succeeds: the assessment row is persisted with score 150 and the failed
cascade even updates the parent, because `Model.save` never runs field
validators. -/
theorem out_of_range_score_save_succeeds :
    ((ProjectAssessment.save 100 assScore150 none dbC4).1.map (fun a => a.score))
        = Except.ok (some 150) ∧
    (ProjectAssessment.save 100 assScore150 none dbC4).2.assessments.map (fun r => r.score)
        = [some 150] ∧
    (ProjectAssessment.save 100 assScore150 none dbC4).2.user_projects.map UserProject.status
        = ["failed"] := by
  exact ⟨rfl, rfl, rfl⟩

/-- C8 (amended): the validators declared on the score field flag exactly the
values outside [0, 100]; they are enforced when model validation runs
(`full_clean`/`clean_fields`), not at plain save time. -/
theorem score_validators_flag_iff_out_of_range (s : Rat) :
    run_score_validators s = true ↔ (s < 0 ∨ 100 < s) := by
  simp [run_score_validators, score_validators, MinValueValidator_check, MaxValueValidator_check]

/-- C9: the name `timezone` is not bound at module scope, and both save paths
that reach `timezone.now()` — persisting a `UserProject` whose in-memory
status is "in_progress" with `started_at` unset, and the cascade of a newly
created assessment with `passed=true` — raise an unhandled name-resolution
error instead of completing the parent write. -/
theorem timezone_unresolved_save_paths_raise :
    moduleGlobals.contains "timezone" = false ∧
    (∀ (now : Nat) (self : UserProject) (uf : Option (List String)) (db : DB),
        self.status = "in_progress" → self.started_at = none →
        UserProject.save now self uf db = (Except.error (PyError.nameError "timezone"), db)) ∧
    (∀ (now : Nat) (self : ProjectAssessment) (uf : Option (List String)) (db : DB),
        self.state_adding = true → self.passed = true →
        (ProjectAssessment.save now self uf db).1 = Except.error (PyError.nameError "timezone") ∧
        ((ProjectAssessment.save now self uf db).2).user_projects = db.user_projects) := by
  refine ⟨rfl, ?_, ?_⟩
  · intro now self uf db h1 h2
    unfold UserProject.save
    rw [h1, h2]
    rfl
  · intro now self uf db h1 h2
    unfold ProjectAssessment.save ProjectAssessment.super_save
    rw [h1, h2]
    exact ⟨rfl, rfl⟩

/-- Witness for C9 at concrete instances of both save paths. -/
theorem timezone_unresolved_save_paths_raise_witness :
    UserProject.save 100 upC3 none dbC3
        = (Except.error (PyError.nameError "timezone"), dbC3) ∧
    (ProjectAssessment.save 150 assNewPassed none dbC4).1
        = Except.error (PyError.nameError "timezone") :=
  ⟨timezone_unresolved_save_paths_raise.2.1 100 upC3 none dbC3 rfl rfl,
   (timezone_unresolved_save_paths_raise.2.2 150 assNewPassed none dbC4 rfl rfl).1⟩

/-- C10: in `ProjectAssessment.save` the assessment row is persisted by the
base save before the cascade to the parent instance runs; when the cascade
raises (as the passed=true path does at `timezone.now()`), the assessment
row remains persisted while the parent table is unchanged — the pair of
writes is not atomic. -/
theorem new_passed_assessment_persisted_cascade_failed (now : Nat) (self : ProjectAssessment)
    (uf : Option (List String)) (db : DB)
    (h1 : self.state_adding = true) (h2 : self.passed = true) :
    (ProjectAssessment.save now self uf db).1 = Except.error (PyError.nameError "timezone") ∧
    ((ProjectAssessment.save now self uf db).2).assessments
      = db.assessments
          ++ [ProjectAssessment.toRow { self with assessed_at := some now, state_adding := false }] ∧
    ((ProjectAssessment.save now self uf db).2).user_projects = db.user_projects := by
  unfold ProjectAssessment.save ProjectAssessment.super_save
  rw [h1, h2]
  exact ⟨rfl, rfl, rfl⟩

/-- Witness for C10 at a concrete new passing assessment. -/
theorem new_passed_assessment_persisted_cascade_failed_witness :
    (ProjectAssessment.save 170 assNewPassed none dbC4).1
        = Except.error (PyError.nameError "timezone") ∧
    ((ProjectAssessment.save 170 assNewPassed none dbC4).2).assessments
      = dbC4.assessments
          ++ [ProjectAssessment.toRow { assNewPassed with assessed_at := some 170, state_adding := false }] ∧
    ((ProjectAssessment.save 170 assNewPassed none dbC4).2).user_projects = dbC4.user_projects :=
  new_passed_assessment_persisted_cascade_failed 170 assNewPassed none dbC4 rfl rfl
